import Mathlib

/-!
Shallow embedding of the WhatsApp sales-bot conversational-state engine
(`server.js`, feature-complete revision) : per-participant state, the
suppression policy chain (human override, escalation, safe mode, rate
limiting), the debounce coordinator, the lead classifier, the
escalation/closing controller, the follow-up scheduler and the
`executeMainLogic` orchestrator.  All state is modelled per participant
(the JS code keys every map by the sender's phone number; the entries for
distinct keys never interact).  `Date.now()` is modelled by an explicit
`now : Nat` argument; a single synchronous handler run sees one value of
`now`.  The two external collaborators are oracles: the generation call is
an `Option String` (`none` = thrown error) and each attempted delivery is
recorded in an output list.
-/

/-- JS `haystack.startsWith(needle)` on exploded characters. -/
def listStartsWith : List Char → List Char → Bool
  | _, [] => true
  | [], _ :: _ => false
  | a :: as, b :: bs => a == b && listStartsWith as bs

/-- JS `haystack.includes(needle)` (substring containment) on exploded characters. -/
def listContainsSub : List Char → List Char → Bool
  | [], needle => needle.isEmpty
  | a :: t, needle => listStartsWith (a :: t) needle || listContainsSub t needle

/-- JS `haystack.includes(needle)` for strings. -/
def jsIncludes (haystack needle : String) : Bool :=
  listContainsSub haystack.data needle.data

/-- JS `s.toLowerCase()` (character-wise, which is exact for the ASCII
keyword lists used by this program). -/
def jsToLower (s : String) : String :=
  ⟨s.data.map Char.toLower⟩

-- ─── Constants (timings, from the source) ───────────────────────────────

def SPAM_INTERVAL_MS : Nat := 60000
def DEBOUNCE_WAIT_MS : Nat := 4000
def HUMAN_OVERRIDE_MS : Nat := 15 * 60 * 1000
def ESCALATION_MS : Nat := 20 * 60 * 1000
def CLOSING_MS : Nat := 24 * 60 * 60 * 1000
def MAX_HISTORY : Nat := 20
def FOLLOWUP_T1_MS : Nat := 30 * 60 * 1000
def FOLLOWUP_T2_MS : Nat := 6 * 60 * 60 * 1000

-- ─── Keyword configuration (verbatim from the source) ───────────────────

/-- Keywords that ALWAYS trigger an auto-reply (even after we replied last). -/
def TRIGGER_KEYWORDS : List String := [
  "price", "rate", "cost", "fees", "charges", "kitna", "kitne",
  "assignment", "project", "solve", "solution", "solved",
  "detail", "details", "info", "information",
  "sample", "demo", "example",
  "delivery", "time", "kab", "when",
  "payment", "pay", "upi", "gpay",
  "order", "confirm", "book"]

/-- HOT — clear buying signals: ready to order / asking final details. -/
def HOT_KEYWORDS : List String := [
  "bhej do", "bhejdo", "kar do", "kardo", "bej do", "order", "confirm", "book",
  "le loon", "le lunga", "le lenge", "lena hai", "chahiye", "de do",
  "payment", "pay", "upi", "gpay", "google pay", "phonepay", "phonepe",
  "paytm", "account number", "account no", "number bhejo", "details bhejo",
  "kab milega", "kab ayega", "kitne din", "kab milegi", "kab tak",
  "delivery time", "kab bhejoge", "jaldi chahiye", "urgent",
  "haan kar do", "ok kar do", "theek hai kar do", "done", "finalize"]

/-- WARM — interested but not yet committed. -/
def WARM_KEYWORDS : List String := [
  "price", "rate", "cost", "kitna", "kitne", "fees", "charges", "kitna hai",
  "detail", "details", "info", "information", "bata do", "batao",
  "assignment", "project", "solve", "solution", "help",
  "sample", "demo", "example", "quality",
  "kya hai", "kaise", "how", "what", "which",
  "hello", "hi", "hey", "helo", "namaste", "hii", "heyy"]

/-- Keywords that trigger escalation (discount requests). -/
def ESCALATION_DISCOUNT_KW : List String := [
  "discount", "kam karo", "thoda kam", "kam ho sakta", "aur kam",
  "cheaper", "reduce", "negotiate", "less price", "extra discount",
  "chhod do", "maaf karo", "free karo", "free kar do"]

/-- Keywords that trigger escalation (confusion). -/
def ESCALATION_CONFUSION_KW : List String := [
  "samajh nahi", "samajh nahi aaya", "kya matlab", "nahi samjha",
  "confused", "confuse", "what do you mean", "don't understand",
  "pata nahi", "mujhe nahi pata", "clear nahi", "ye kya hai"]

/-- Order-confirmation signals: address details / payment done. -/
def ESCALATION_ORDER_KW : List String := [
  "pin code", "pincode", "near", "opposite", "mohalla", "gali",
  "village", "ward no", "plot no", "house no", "flat no",
  "kar diya", "kar diya payment", "paid", "payment ho gaya",
  "bhej diya", "screenshot bhej", "transfer kar diya", "payment kar di"]

def ESCALATION_MSG : String :=
  "Main details note kar raha hu 🙂\nTeam abhi confirm karke aapko guide kar degi."

def CLOSING_MSG : String :=
  "Perfect 🙂\nMain details note kar raha hu.\nTeam abhi payment aur dispatch guide kar degi."

-- ─── Per-participant state records ──────────────────────────────────────

/-- spamTracker entry: `{ lastReplyAt, lastReplyText, debounceTimer, messageQueue }`.
`debounceTimer` holds the id of the pending one-shot debounce timer. -/
structure SpamEntry where
  lastReplyAt : Nat
  lastReplyText : String
  debounceTimer : Option Nat
  messageQueue : List String
deriving DecidableEq, Repr

/-- safeModeTracker entry: `{ userMsgCount, lastSenderWasUs }`. -/
structure SafeModeEntry where
  userMsgCount : Nat
  lastSenderWasUs : Bool
deriving DecidableEq, Repr

inductive LeadIntent
  | HOT
  | WARM
  | COLD
deriving DecidableEq, Repr

/-- `RANK = { HOT: 3, WARM: 2, COLD: 1 }`. -/
def RANK : LeadIntent → Nat
  | .HOT => 3
  | .WARM => 2
  | .COLD => 1

/-- leadStore entry: `{ intent, updatedAt }`. -/
structure LeadEntry where
  intent : LeadIntent
  updatedAt : Nat
deriving DecidableEq, Repr

/-- followUpStore entry: `{ timerId, count }`.  `timerStage` records the armed
one-shot timer together with the stage it was armed for (`none` = no pending
timer, i.e. the JS `timerId` is null or cleared). -/
structure FollowUpEntry where
  timerStage : Option Nat
  count : Nat
deriving DecidableEq, Repr

-- ─── Safe mode gate ─────────────────────────────────────────────────────

/-- `shouldAutoReply(phone, messageText)` — returns true if the bot should
auto-reply in SAFE MODE, given that participant's tracker entry. -/
def shouldAutoReply (tracker : SafeModeEntry) (messageText : String) : Bool :=
  let text := jsToLower messageText
  -- Rule 1: ALWAYS reply to the very first message
  if tracker.userMsgCount = 0 then true
  -- Rule 3: If our team/bot replied last, only continue if keyword matched
  else if tracker.lastSenderWasUs then
    (TRIGGER_KEYWORDS.find? (fun kw => jsIncludes text kw)).isSome
  -- Rule 2: Customer sent last (no reply yet) + keyword triggered
  else
    (TRIGGER_KEYWORDS.find? (fun kw => jsIncludes text kw)).isSome

-- ─── Lead classifier ────────────────────────────────────────────────────

/-- The intent freshly computed from a message text alone (the first half of
`detectLeadIntent`): HOT keywords first, then WARM, else COLD. -/
def computeLeadIntent (messageText : String) : LeadIntent :=
  let text := jsToLower messageText
  let isHot := HOT_KEYWORDS.any (fun kw => jsIncludes text kw)
  let isWarm := WARM_KEYWORDS.any (fun kw => jsIncludes text kw)
  if isHot then .HOT else if isWarm then .WARM else .COLD

/-- `detectLeadIntent(phone, messageText)` — detects and stores lead intent.
Returns the intent handed back to the caller together with the new stored
entry.  Only upgrades intent — never downgrades. -/
def detectLeadIntent (lead : Option LeadEntry) (now : Nat) (messageText : String) :
    LeadIntent × Option LeadEntry :=
  let intent := computeLeadIntent messageText
  match lead with
  | none => (intent, some ⟨intent, now⟩)
  | some existing =>
    if RANK existing.intent < RANK intent then (intent, some ⟨intent, now⟩)
    else (existing.intent, some existing)


/-- Rank of the stored lead entry (0 when no entry exists yet). -/
def rankOpt : Option LeadEntry → Nat
  | none => 0
  | some e => RANK e.intent

-- ─── Human override ─────────────────────────────────────────────────────

/-- `setHumanOverride(phone)` — bot silent for this phone for 15 minutes. -/
def setHumanOverride (now : Nat) : Option Nat :=
  some (now + HUMAN_OVERRIDE_MS)

/-- `isHumanOverrideActive(phone)` — true if the override is still active.
Also returns the store entry after the lazy expiry cleanup. -/
def isHumanOverrideActive (ov : Option Nat) (now : Nat) : Bool × Option Nat :=
  match ov with
  | none => (false, none)
  | some silencedUntil =>
    if now < silencedUntil then (true, some silencedUntil)
    else (false, none)

-- ─── Escalation & closing system ────────────────────────────────────────

/-- `checkAndSetEscalation(phone, messageText)` — checks for triggers and sets
the bot to silent mode.  Returns the updated escalation entry and the specific
message to be sent (`none` if no trigger hit). -/
def checkAndSetEscalation (esc : Option Nat) (now : Nat) (messageText : String) :
    Option Nat × Option String :=
  let text := jsToLower messageText
  -- Check for Order Confirmation (High Priority)
  let orderHit := ESCALATION_ORDER_KW.any (fun kw => jsIncludes text kw)
  if orderHit then (some (now + CLOSING_MS), some CLOSING_MSG)
  else
    -- Check for general Escalation (Discount/Confusion)
    let escalationHit :=
      ESCALATION_DISCOUNT_KW.any (fun kw => jsIncludes text kw) ||
      ESCALATION_CONFUSION_KW.any (fun kw => jsIncludes text kw)
    if escalationHit then (some (now + ESCALATION_MS), some ESCALATION_MSG)
    else (esc, none)

/-- `isEscalationActive(phone)` — true if escalation silence is still active.
Also returns the store entry after the lazy expiry cleanup. -/
def isEscalationActive (esc : Option Nat) (now : Nat) : Bool × Option Nat :=
  match esc with
  | none => (false, none)
  | some silencedUntil =>
    if now < silencedUntil then (true, some silencedUntil)
    else (false, none)

-- ─── Rate limiter (dynamic interval + duplicate suppression) ────────────

/-- `isRateLimited(phone, newReplyText = null)` — true when the dynamic
interval since the last reply has not yet elapsed, or when `newReplyText` is
a non-empty duplicate of the previous reply text (JS: `newReplyText &&
entry.lastReplyText === newReplyText`, where the empty string is falsy). -/
def isRateLimited (spam : Option SpamEntry) (lead : Option LeadEntry) (now : Nat)
    (newReplyText : Option String) : Bool :=
  match spam with
  | none => false
  | some entry =>
    let intent := match lead with
      | some l => l.intent
      | none => .COLD
    -- Dynamic interval: HOT leads get 5s (priority), others 60s
    let currentInterval := if intent = .HOT then 5000 else SPAM_INTERVAL_MS
    -- Rule: Dynamic interval between bot replies
    if now - entry.lastReplyAt < currentInterval then true
    -- Rule: Do not repeat same message twice
    else match newReplyText with
      | none => false
      | some t => decide (t ≠ "") && (entry.lastReplyText == t)

/-- `updateLastReply(phone, text)` — updates the tracker after a reply. -/
def updateLastReply (spam : Option SpamEntry) (now : Nat) (text : String) : SpamEntry :=
  let entry := spam.getD ⟨0, "", none, []⟩
  { entry with lastReplyAt := now, lastReplyText := text }

-- ─── Follow-up scheduler ────────────────────────────────────────────────

/-- `scheduleFollowUp(phone, senderJid, stage = 1)` — cancels any pending
timer, resets the nudge counter on a fresh (stage-1) interaction, and arms a
new one-shot timer unless the max count is reached or the human override is
active.  Returns the new entry together with the override store after its
lazy cleanup (the guard calls `isHumanOverrideActive`, short-circuited behind
`entry.count >= 2`). -/
def scheduleFollowUp (fu : Option FollowUpEntry) (stage : Nat) (ov : Option Nat)
    (now : Nat) : FollowUpEntry × Option Nat :=
  let entry := fu.getD ⟨none, 0⟩
  -- Cancel any existing timer
  let entry := { entry with timerStage := none }
  -- If stage is 1, a fresh interaction happened — reset count
  let entry := if stage = 1 then { entry with count := 0 } else entry
  -- Don't follow up if we already sent 2 or if human override is active
  if 2 ≤ entry.count then (entry, ov)
  else
    let ovq := isHumanOverrideActive ov now
    if ovq.1 then (entry, ovq.2)
    else ({ entry with timerStage := some stage }, ovq.2)

/-- The body of the `setTimeout` callback armed by `scheduleFollowUp`,
executed when the one-shot timer fires (a cleared timer never fires; firing
consumes the timer).  Sends the nudge unless the human override became
active, then re-arms stage 2 after the stage-1 nudge.  Returns the new
follow-up entry, the override store after lazy cleanup, and the number of
nudge messages sent (0 or 1). -/
def fireFollowUp (entry : FollowUpEntry) (ov : Option Nat) (now : Nat) :
    FollowUpEntry × Option Nat × Nat :=
  match entry.timerStage with
  | none => (entry, ov, 0)
  | some _stage =>
    let entry := { entry with timerStage := none }
    -- Check if override activated in the meantime
    let ovq := isHumanOverrideActive ov now
    if ovq.1 then (entry, ovq.2, 0)
    else
      -- sendWhatsAppMessage(senderJid, msg) succeeds; entry.count++
      let entry := { entry with count := entry.count + 1 }
      -- If we just sent Stage 1, schedule Stage 2
      if entry.count = 1 then
        let sched := scheduleFollowUp (some entry) 2 ovq.2 now
        (sched.1, sched.2, 1)
      else (entry, ovq.2, 1)

/-- `cancelFollowUp(phone)` — clears the pending timer, keeping the count. -/
def cancelFollowUp (fu : Option FollowUpEntry) : Option FollowUpEntry :=
  match fu with
  | none => none
  | some entry => some { entry with timerStage := none }

/-- Events affecting one participant's follow-up scheduling over time:
`interact` = a qualifying event that calls `scheduleFollowUp(phone, jid)`
with stage 1; `fire` = the pending one-shot timer fires; `cancel` =
`cancelFollowUp(phone)`. -/
inductive FUEvent
  | interact (now : Nat)
  | fire (now : Nat)
  | cancel
deriving DecidableEq, Repr

/-- Cumulative follow-up state: the store entry, the override entry and the
total number of nudge messages sent so far. -/
structure FUState where
  fu : Option FollowUpEntry
  ov : Option Nat
  sends : Nat
deriving DecidableEq, Repr

/-- One step of the follow-up system. -/
def fuStep (st : FUState) (ev : FUEvent) : FUState :=
  match ev with
  | .interact now =>
    let sched := scheduleFollowUp st.fu 1 st.ov now
    ⟨some sched.1, sched.2, st.sends⟩
  | .cancel => ⟨cancelFollowUp st.fu, st.ov, st.sends⟩
  | .fire now =>
    match st.fu with
    | none => st
    | some entry =>
      let r := fireFollowUp entry st.ov now
      ⟨some r.1, r.2.1, st.sends + r.2.2⟩

/-- A run of the follow-up system over a list of events. -/
def fuRun (evs : List FUEvent) (st : FUState) : FUState :=
  evs.foldl fuStep st

/-- Is this event a fresh qualifying interaction (a stage-1
`scheduleFollowUp` call)? -/
def FUEvent.isInteract : FUEvent → Bool
  | .interact _ => true
  | _ => false

/-- Upper bound on the nudges the armed timer chain can still produce:
an unarmed entry produces none; an armed entry at count `c` can produce at
most `2 - c` more. -/
def fuPotential : Option FollowUpEntry → Nat
  | none => 0
  | some e => match e.timerStage with
    | none => 0
    | some _ => 2 - e.count

/-- Reachability invariant of the follow-up store: whenever a timer is
armed, at most one nudge has been sent in the current cycle. -/
def fuArmedInv (fu : Option FollowUpEntry) : Prop :=
  ∀ e, fu = some e → e.timerStage ≠ none → e.count ≤ 1

-- ─── Debounce coordinator ───────────────────────────────────────────────

/-- The debounce portion of `handleMessage` for one inbound text: push the
text onto `messageQueue`, `clearTimeout` the pending debounce timer and arm a
fresh one (modelled by the fresh-id counter threaded alongside). -/
def handleInboundText (st : SpamEntry × Nat) (messageText : String) : SpamEntry × Nat :=
  let entry := st.1
  let entry := { entry with messageQueue := entry.messageQueue ++ [messageText] }
  ({ entry with debounceTimer := some st.2 }, st.2 + 1)

/-- A debounce timer with identifier `id` reaches its deadline.  A timer that
was cancelled by `clearTimeout` (its id is no longer the armed one) never
runs its callback.  The surviving callback invokes `executeMainLogic`, whose
debounce front-end joins the queued texts with single spaces, clears the
queue, and hands the combined text to the downstream evaluation; the
returned list collects the combined texts so processed. -/
def fireDebounce (entry : SpamEntry) (id : Nat) : SpamEntry × List String :=
  if entry.debounceTimer = some id then
    if entry.messageQueue.isEmpty then ({ entry with debounceTimer := none }, [])
    else
      ({ entry with messageQueue := [], debounceTimer := none },
       [String.intercalate " " entry.messageQueue])
  else (entry, [])

/-- Fire a list of timer deadlines in order, collecting every combined text
handed to the downstream evaluation. -/
def fireDebounceAll (entry : SpamEntry) (ids : List Nat) : SpamEntry × List String :=
  match ids with
  | [] => (entry, [])
  | id :: rest =>
    let r := fireDebounce entry id
    let rr := fireDebounceAll r.1 rest
    (rr.1, r.2 ++ rr.2)

/-- A whole burst: `msgs` arrive in order, each within the pending debounce
window (so each arrival re-arms the timer before the previous one fires);
afterwards every timer deadline ever armed is reached.  Returns the combined
texts handed to the downstream evaluation. -/
def debounceBurst (msgs : List String) : List String :=
  let st := msgs.foldl handleInboundText (⟨0, "", none, []⟩, 0)
  (fireDebounceAll st.1 (List.range st.2)).2


-- ─── Orchestrator state and main logic ──────────────────────────────────

inductive Role
  | user
  | assistant
deriving DecidableEq, Repr

/-- One conversationHistory turn: `{ role, content }`. -/
structure ChatTurn where
  role : Role
  content : String
deriving DecidableEq, Repr

/-- All per-participant state owned by the orchestrator: the entries of the
seven JS maps for one phone number (`none` = no entry for that key). -/
structure BotState where
  spam : Option SpamEntry
  safeMode : Option SafeModeEntry
  lead : Option LeadEntry
  humanOverride : Option Nat
  escalation : Option Nat
  followUp : Option FollowUpEntry
  history : Option (List ChatTurn)
deriving DecidableEq, Repr

/-- The outcome of one `executeMainLogic` run: the state afterwards, the
texts handed to `sendWhatsAppMessage` (delivery attempts, in order), and
whether the generation collaborator (`getOpenAIReply`) was invoked. -/
structure ExecOutcome where
  state : BotState
  sends : List String
  genCalled : Bool
deriving DecidableEq, Repr

/-- The guarded tail of `executeMainLogic` from the speculative user-turn
append onwards (runs only after all four suppression gates passed).
`genResult` is the generation oracle (`none` = the call threw);
`sendOk` tells whether a delivery attempt succeeds. -/
def mainGenerationPhase (s : BotState) (combinedText : String) (now : Nat)
    (genResult : Option String) (sendOk : Bool) : ExecOutcome :=
  -- Append combined user message + increment safe mode counter
  let history1 := (s.history.getD []) ++ [⟨Role.user, combinedText⟩]
  let sm1 : SafeModeEntry := ⟨(s.safeMode.getD ⟨0, false⟩).userMsgCount + 1, false⟩
  let s5 : BotState := { s with history := some history1, safeMode := some sm1 }
  -- Detect intent
  let dli := detectLeadIntent s5.lead now combinedText
  let s6 : BotState := { s5 with lead := dli.2 }
  -- Escalation/Closing trigger (discount / confusion / order-ready)
  let escRes := checkAndSetEscalation s6.escalation now combinedText
  let s7 : BotState := { s6 with escalation := escRes.1 }
  match escRes.2 with
  | some handoffMsg =>
    -- send handoff message directly; do NOT call OpenAI
    let s8 := if sendOk then
        { s7 with spam := some (updateLastReply s7.spam now handoffMsg) }
      else s7
    ⟨s8, [handoffMsg], false⟩
  | none =>
    match genResult with
    | none =>
      -- generation failed: history.pop() and abandon the turn
      ⟨{ s7 with history := some history1.dropLast }, [], true⟩
    | some aiReply =>
      -- EXTRA RULE: Do not repeat same message twice
      if isRateLimited s7.spam s7.lead now (some aiReply) then ⟨s7, [], true⟩
      else
        -- Persist assistant reply, mark we replied last, trim history
        let history2 := history1 ++ [⟨Role.assistant, aiReply⟩]
        let sm2 : SafeModeEntry :=
          { (s7.safeMode.getD ⟨0, false⟩) with lastSenderWasUs := true }
        let history3 := if MAX_HISTORY * 2 < history2.length
          then history2.drop (history2.length - MAX_HISTORY * 2) else history2
        let s8 : BotState := { s7 with history := some history3, safeMode := some sm2 }
        let s9 := if sendOk then
            { s8 with spam := some (updateLastReply s8.spam now aiReply) }
          else s8
        ⟨s9, [aiReply], true⟩

/-- `executeMainLogic(senderPhone, senderJid)` — the debounced core driver:
drain the message queue into the combined text, re-arm the follow-up
scheduler, then run the suppression gates (human override, escalation, safe
mode, rate-limit interval) and, if every gate passes, the generation phase. -/
def executeMainLogic (s : BotState) (now : Nat) (genResult : Option String)
    (sendOk : Bool) : ExecOutcome :=
  match s.spam with
  | none => ⟨s, [], false⟩
  | some entry =>
    if entry.messageQueue.isEmpty then ⟨s, [], false⟩
    else
      -- Join all messages sent during the debounce window; clear for next round
      let combinedText := String.intercalate " " entry.messageQueue
      let s1 : BotState := { s with spam := some { entry with messageQueue := [] } }
      -- Schedule follow-up
      let sched := scheduleFollowUp s1.followUp 1 s1.humanOverride now
      let s2 : BotState := { s1 with followUp := some sched.1, humanOverride := sched.2 }
      -- Guard 4: Human Override check
      let ovq := isHumanOverrideActive s2.humanOverride now
      let s3 : BotState := { s2 with humanOverride := ovq.2 }
      if ovq.1 then ⟨s3, [], false⟩
      else
        -- Guard 4.5: Escalation Active check
        let escq := isEscalationActive s3.escalation now
        let s4 : BotState := { s3 with escalation := escq.2 }
        if escq.1 then ⟨s4, [], false⟩
        -- Guard 5: SAFE MODE
        else if ¬ shouldAutoReply (s4.safeMode.getD ⟨0, false⟩) combinedText then
          ⟨s4, [], false⟩
        -- Guard 6: Interval rule (Once per 60s)
        else if isRateLimited s4.spam s4.lead now none then ⟨s4, [], false⟩
        else mainGenerationPhase s4 combinedText now genResult sendOk

/-- The `from_me === true` branch of `handleMessage`: record that the team
replied last, set the human override, and call `scheduleFollowUp` (whose
override guard, seeing the override just set, cancels the pending timer
without arming a new one). -/
def handleMessageFromMe (s : BotState) (now : Nat) : BotState :=
  let tracker := s.safeMode.getD ⟨0, false⟩
  let s := { s with safeMode := some { tracker with lastSenderWasUs := true } }
  let s := { s with humanOverride := setHumanOverride now }
  let sched := scheduleFollowUp s.followUp 1 s.humanOverride now
  { s with followUp := some sched.1, humanOverride := sched.2 }

/-- A convenient fully-idle participant state (no entries in any map). -/
def emptyBotState : BotState := ⟨none, none, none, none, none, none, none⟩

/-- The participant state after `executeMainLogic` has drained the message
queue, re-armed the follow-up scheduler and run the two active-window
guards' lazy cleanups — exactly the state the generation phase starts from
when every suppression gate passes. -/
def guardCleanupState (s : BotState) (entry : SpamEntry) (now : Nat) : BotState :=
  let s1 : BotState := { s with spam := some { entry with messageQueue := [] } }
  let sched := scheduleFollowUp s1.followUp 1 s1.humanOverride now
  let s2 : BotState := { s1 with followUp := some sched.1, humanOverride := sched.2 }
  let ovq := isHumanOverrideActive s2.humanOverride now
  let s3 : BotState := { s2 with humanOverride := ovq.2 }
  let escq := isEscalationActive s3.escalation now
  { s3 with escalation := escq.2 }



-- ════════════════════════════════════════════════════════════════════════
-- Theorems
-- ════════════════════════════════════════════════════════════════════════

-- ─── Helper lemmas ──────────────────────────────────────────────────────

theorem detectLeadIntent_rank_le (lead : Option LeadEntry) (now : Nat) (text : String) :
    rankOpt lead ≤ rankOpt (detectLeadIntent lead now text).2 := by
  unfold detectLeadIntent rankOpt
  cases lead with
  | none => exact Nat.zero_le _
  | some e =>
    by_cases h : RANK e.intent < RANK (computeLeadIntent text)
    · simp only [h, if_true]
      exact Nat.le_of_lt h
    · simp only [h, if_false]
      exact Nat.le_refl _

-- ─── C2 ─────────────────────────────────────────────────────────────────

/-- C2 (counterexample): the claim says that whenever the stored safe-mode
state has `userMsgCount > 0` and `lastSenderWasUs = false`, `shouldAutoReply`
returns true for every message text, including texts with no trigger
keyword.  It is false: for the tracker `{ userMsgCount := 1,
lastSenderWasUs := false }` and the keyword-free text `"xyz"`, the gate
suppresses the reply. -/
theorem shouldAutoReply_no_keyword_cex :
    (SafeModeEntry.mk 1 false).userMsgCount ≠ 0 ∧
      (SafeModeEntry.mk 1 false).lastSenderWasUs = false ∧
      shouldAutoReply ⟨1, false⟩ "xyz" = false := by
  decide

/-- C2 (amended): when the participant has prior messages
(`userMsgCount ≠ 0`) and the bot/operator did not reply last
(`lastSenderWasUs = false`), `shouldAutoReply` returns true exactly when the
lowercased text contains a configured trigger keyword. -/
theorem shouldAutoReply_customer_sent_last_iff (tracker : SafeModeEntry) (text : String)
    (hcount : tracker.userMsgCount ≠ 0) (hlast : tracker.lastSenderWasUs = false) :
    (shouldAutoReply tracker text = true ↔
      ∃ kw ∈ TRIGGER_KEYWORDS, jsIncludes (jsToLower text) kw = true) := by
  unfold shouldAutoReply
  simp only [hcount, if_false, hlast, Bool.false_eq_true]
  rw [List.find?_isSome]

/-- C2 witness: a prior-message participant whose last message went
unanswered gets a reply exactly when a keyword such as "price" appears. -/
theorem shouldAutoReply_customer_sent_last_iff_witness :
    (shouldAutoReply ⟨2, false⟩ "price batao" = true ↔
      ∃ kw ∈ TRIGGER_KEYWORDS, jsIncludes (jsToLower "price batao") kw = true) :=
  shouldAutoReply_customer_sent_last_iff ⟨2, false⟩ "price batao" (by decide) rfl

-- ─── C3 ─────────────────────────────────────────────────────────────────

/-- C3: the stored lead intent is a ratchet.  (1) Across any sequence of
classifications the stored rank (HOT=3, WARM=2, COLD=1) never decreases;
(2) classifying a text whose freshly computed intent does not outrank the
stored one leaves the stored entry unchanged and returns the stored
(higher) intent. -/
theorem detectLeadIntent_ratchet :
    (∀ (lead : Option LeadEntry) (now : Nat) (texts : List String),
        rankOpt lead ≤
          rankOpt (texts.foldl (fun l t => (detectLeadIntent l now t).2) lead)) ∧
      (∀ (e : LeadEntry) (now : Nat) (text : String),
        RANK (computeLeadIntent text) ≤ RANK e.intent →
        detectLeadIntent (some e) now text = (e.intent, some e)) := by
  constructor
  · intro lead now texts
    induction texts generalizing lead with
    | nil => exact Nat.le_refl _
    | cons t ts ih =>
      exact Nat.le_trans (detectLeadIntent_rank_le lead now t) (ih _)
  · intro e now text h
    unfold detectLeadIntent
    simp only [Nat.not_lt.mpr h, if_false]

/-- C3 witness: a participant already stored as HOT keeps both the stored
entry and the returned intent at HOT when a COLD text is classified. -/
theorem detectLeadIntent_ratchet_witness :
    detectLeadIntent (some ⟨.HOT, 0⟩) 5 "zzz" = (.HOT, some ⟨.HOT, 0⟩) :=
  detectLeadIntent_ratchet.2 ⟨.HOT, 0⟩ 5 "zzz" (by decide)

-- ─── C6 ─────────────────────────────────────────────────────────────────

/-- C6: a text containing an order-confirmation keyword (even together with
a discount/confusion keyword) takes the CLOSING path: 24-hour silence and
the closing message, not the generic escalation message. -/
theorem checkAndSetEscalation_closing_priority (esc : Option Nat) (now : Nat)
    (text : String)
    (horder : ESCALATION_ORDER_KW.any (fun kw => jsIncludes (jsToLower text) kw) = true)
    (_hdisc : (ESCALATION_DISCOUNT_KW.any (fun kw => jsIncludes (jsToLower text) kw) ||
        ESCALATION_CONFUSION_KW.any (fun kw => jsIncludes (jsToLower text) kw)) = true) :
    checkAndSetEscalation esc now text = (some (now + CLOSING_MS), some CLOSING_MSG) := by
  unfold checkAndSetEscalation
  simp only [horder, if_true]

/-- C6 witness: "pin code 123456 kam karo" contains both an
order-confirmation keyword ("pin code") and a discount keyword ("kam karo")
and takes the CLOSING path. -/
theorem checkAndSetEscalation_closing_priority_witness :
    checkAndSetEscalation none 0 "pin code 123456 kam karo"
      = (some (0 + CLOSING_MS), some CLOSING_MSG) :=
  checkAndSetEscalation_closing_priority none 0 "pin code 123456 kam karo"
    (by decide) (by decide)

-- ─── C5 ─────────────────────────────────────────────────────────────────

/-- C5: processing an operator-authored outgoing event (`from_me = true`)
leaves the participant with no pending follow-up timer — the pending timer
is cancelled and, because the human override was just set, no new timer is
armed — and with the 15-minute override in place. -/
theorem handleMessageFromMe_cancels_followUp (s : BotState) (now : Nat) :
    (handleMessageFromMe s now).followUp = some ⟨none, 0⟩ ∧
      (handleMessageFromMe s now).humanOverride = some (now + HUMAN_OVERRIDE_MS) := by
  unfold handleMessageFromMe setHumanOverride scheduleFollowUp isHumanOverrideActive
  cases h : s.followUp with
  | none =>
    simp [h, Nat.lt_add_of_pos_right, HUMAN_OVERRIDE_MS]
  | some e =>
    simp [h, Nat.lt_add_of_pos_right, HUMAN_OVERRIDE_MS]

-- ─── C1 ─────────────────────────────────────────────────────────────────

theorem handleInboundText_foldl (msgs : List String) (e : SpamEntry) (k : Nat)
    (h : msgs ≠ []) :
    msgs.foldl handleInboundText (e, k) =
      ({ e with messageQueue := e.messageQueue ++ msgs,
                debounceTimer := some (k + msgs.length - 1) }, k + msgs.length) := by
  induction msgs generalizing e k with
  | nil => exact absurd rfl h
  | cons t ts ih =>
    by_cases hts : ts = []
    · subst hts
      simp [handleInboundText]
    · simp only [List.foldl_cons, handleInboundText]
      rw [ih _ _ hts]
      simp only [Prod.mk.injEq, SpamEntry.mk.injEq, List.append_assoc,
        List.singleton_append, List.length_cons, Option.some.injEq, true_and, and_true]
      omega

theorem fireDebounceAll_no_match (ids : List Nat) (e : SpamEntry) (j : Nat)
    (he : e.debounceTimer = some j) (h : ∀ i ∈ ids, i ≠ j) :
    fireDebounceAll e ids = (e, []) := by
  induction ids with
  | nil => rfl
  | cons i rest ih =>
    have hij : i ≠ j := h i (List.mem_cons_self i rest)
    have hfire : fireDebounce e i = (e, []) := by
      unfold fireDebounce
      rw [if_neg]
      rw [he]
      simp only [Option.some.injEq]
      exact fun hh => hij hh.symm
    simp only [fireDebounceAll, hfire]
    rw [ih (fun i hi => h i (List.mem_cons_of_mem _ hi))]
    rfl

theorem fireDebounceAll_append (e : SpamEntry) (l1 l2 : List Nat) :
    fireDebounceAll e (l1 ++ l2) =
      ((fireDebounceAll (fireDebounceAll e l1).1 l2).1,
        (fireDebounceAll e l1).2 ++ (fireDebounceAll (fireDebounceAll e l1).1 l2).2) := by
  induction l1 generalizing e with
  | nil => simp [fireDebounceAll]
  | cons i rest ih =>
    simp only [List.cons_append, fireDebounceAll, List.append_eq]
    rw [ih]
    simp [List.append_assoc]

/-- C1: a burst of `N ≥ 1` texts from one participant, each arriving inside
the pending debounce window (so each arrival clears the previous timer and
arms a fresh one), followed by all armed timer deadlines, hands the
downstream evaluation (`executeMainLogic`) exactly one combined text — the
burst's texts joined by single spaces in arrival order. -/
theorem debounce_burst_exactly_once (msgs : List String) (h : msgs ≠ []) :
    debounceBurst msgs = [String.intercalate " " msgs] := by
  unfold debounceBurst
  rw [handleInboundText_foldl msgs _ 0 h]
  obtain ⟨n, hn⟩ : ∃ n, msgs.length = n + 1 :=
    ⟨msgs.length - 1, (Nat.succ_pred_eq_of_pos (List.length_pos.mpr h)).symm⟩
  simp only [hn, List.nil_append, Nat.zero_add, Nat.add_sub_cancel]
  rw [show List.range (n + 1) = List.range n ++ [n] from List.range_succ n]
  rw [fireDebounceAll_append]
  rw [fireDebounceAll_no_match (List.range n) _ n rfl
    (fun i hi => Nat.ne_of_lt (List.mem_range.mp hi))]
  have hempty : msgs.isEmpty = false := by
    cases msgs with
    | nil => exact absurd rfl h
    | cons a l => rfl
  simp [fireDebounceAll, fireDebounce, hempty]

/-- C1 witness: a three-message burst yields exactly one evaluation whose
combined text is the three texts space-joined in arrival order. -/
theorem debounce_burst_exactly_once_witness :
    debounceBurst ["hi", "price batao", "jaldi"]
      = [String.intercalate " " ["hi", "price batao", "jaldi"]] :=
  debounce_burst_exactly_once ["hi", "price batao", "jaldi"] (by decide)

-- ─── C4 ─────────────────────────────────────────────────────────────────

theorem isHumanOverrideActive_false_none (ov : Option Nat) (now : Nat)
    (h : (isHumanOverrideActive ov now).1 = false) :
    (isHumanOverrideActive ov now).2 = none := by
  unfold isHumanOverrideActive at h ⊢
  cases ov with
  | none => rfl
  | some u =>
    by_cases hu : now < u
    · simp [hu] at h
    · simp [hu]

theorem fireFollowUp_spec (e : FollowUpEntry) (ov : Option Nat) (t : Nat)
    (hinv : e.timerStage ≠ none → e.count ≤ 1) :
    (fireFollowUp e ov t).2.2 + fuPotential (some (fireFollowUp e ov t).1) ≤
        fuPotential (some e) ∧
      ((fireFollowUp e ov t).1.timerStage ≠ none →
        (fireFollowUp e ov t).1.count ≤ 1) := by
  obtain ⟨ts, c⟩ := e
  cases ts with
  | none =>
    simp only [fireFollowUp]
    exact ⟨by omega, fun h => hinv h⟩
  | some stage =>
    have hc : c ≤ 1 := hinv (by simp)
    by_cases hov : (isHumanOverrideActive ov t).1 = true
    · simp only [fireFollowUp, hov, if_true]
      refine ⟨?_, fun h => absurd rfl h⟩
      simp only [fuPotential]
      omega
    · simp only [Bool.not_eq_true] at hov
      have hov2 : (isHumanOverrideActive ov t).2 = none :=
        isHumanOverrideActive_false_none ov t hov
      have hnone : isHumanOverrideActive none t = (false, none) := rfl
      rcases Nat.le_one_iff_eq_zero_or_eq_one.mp hc with h0 | h1
      · subst h0
        simp [fireFollowUp, scheduleFollowUp, hov, hov2, hnone, fuPotential]
      · subst h1
        simp [fireFollowUp, hov, fuPotential]

theorem fuStep_no_interact_bound (st : FUState) (ev : FUEvent)
    (hev : ev.isInteract = false) (hinv : fuArmedInv st.fu) :
    (fuStep st ev).sends + fuPotential (fuStep st ev).fu ≤ st.sends + fuPotential st.fu ∧
      fuArmedInv (fuStep st ev).fu := by
  cases ev with
  | interact t => simp [FUEvent.isInteract] at hev
  | cancel =>
    cases hfu : st.fu with
    | none =>
      constructor
      · simp [fuStep, cancelFollowUp, hfu]
      · intro x hx hxt
        simp [fuStep, cancelFollowUp, hfu] at hx
    | some e =>
      constructor
      · simp only [fuStep, cancelFollowUp, hfu]
        simp [fuPotential]
      · intro x hx hxt
        simp only [fuStep, cancelFollowUp, hfu, Option.some.injEq] at hx
        exact absurd (congrArg FollowUpEntry.timerStage hx.symm) hxt
  | fire t =>
    cases hfu : st.fu with
    | none =>
      constructor
      · simp [fuStep, hfu]
      · intro x hx hxt
        simp [fuStep, hfu] at hx
    | some e =>
      have hspec := fireFollowUp_spec e st.ov t (fun h => hinv e hfu h)
      constructor
      · simp only [fuStep, hfu]
        simp only [fuPotential] at hspec ⊢
        omega
      · intro x hx hxt
        simp only [fuStep, hfu, Option.some.injEq] at hx
        subst hx
        exact hspec.2 hxt

theorem fuRun_no_interact_bound (evs : List FUEvent) (st : FUState)
    (hevs : ∀ ev ∈ evs, ev.isInteract = false) (hinv : fuArmedInv st.fu) :
    (fuRun evs st).sends + fuPotential (fuRun evs st).fu ≤
        st.sends + fuPotential st.fu ∧
      fuArmedInv (fuRun evs st).fu := by
  induction evs generalizing st with
  | nil => exact ⟨Nat.le_refl _, hinv⟩
  | cons ev evs ih =>
    have h1 := fuStep_no_interact_bound st ev (hevs ev (List.mem_cons_self ev evs)) hinv
    have h2 := ih (fuStep st ev) (fun e he => hevs e (List.mem_cons_of_mem _ he)) h1.2
    simp only [fuRun, List.foldl_cons] at h2 ⊢
    exact ⟨Nat.le_trans h2.1 h1.1, h2.2⟩

theorem scheduleFollowUp_stage1_pot (fu : Option FollowUpEntry) (ov : Option Nat)
    (now : Nat) :
    fuPotential (some (scheduleFollowUp fu 1 ov now).1) ≤ 2 ∧
      fuArmedInv (some (scheduleFollowUp fu 1 ov now).1) := by
  unfold scheduleFollowUp
  simp only [if_pos rfl, if_neg (by omega : ¬ (2 ≤ 0))]
  by_cases hov : (isHumanOverrideActive ov now).1 = true
  · constructor
    · simp [hov, fuPotential]
    · intro x hx hxt
      simp only [hov, if_true, Option.some.injEq] at hx
      exact absurd (congrArg FollowUpEntry.timerStage hx.symm) hxt
  · simp only [Bool.not_eq_true] at hov
    constructor
    · simp [hov, fuPotential]
    · intro x hx hxt
      simp only [hov, Bool.false_eq_true, if_false, Option.some.injEq] at hx
      subst hx
      simp

/-- C4 (counterexample): the claim says at most 2 nudges are ever sent per
conversation lifetime, across any sequence of inbound events, timer
firings and re-armings.  It is false: a stage-1 `scheduleFollowUp` call
(fresh interaction) resets the nudge counter to 0, so after both nudges of
one inactivity cycle have fired, a further customer message re-arms the
cycle and a third nudge fires — 3 nudges in one conversation lifetime. -/
theorem followUp_lifetime_cex :
    2 < (fuRun [.interact 0, .fire 1, .fire 2, .interact 3, .fire 4]
      ⟨none, none, 0⟩).sends := by
  decide

/-- C4 (amended): between consecutive qualifying interactions the scheduler
sends at most 2 nudges — after any stage-1 `scheduleFollowUp` call, any
sequence of timer firings and cancellations (with no further stage-1
interaction) produces at most 2 additional nudge messages.  The lifetime
total is instead unbounded, because each fresh interaction resets the
counter. -/
theorem followUp_cycle_at_most_two (fu : Option FollowUpEntry) (ov : Option Nat)
    (sends now : Nat) (evs : List FUEvent)
    (hevs : ∀ ev ∈ evs, ev.isInteract = false) :
    (fuRun evs (fuStep ⟨fu, ov, sends⟩ (.interact now))).sends ≤ sends + 2 := by
  have hstart := scheduleFollowUp_stage1_pot fu ov now
  have hrun := fuRun_no_interact_bound evs
    (fuStep ⟨fu, ov, sends⟩ (.interact now)) hevs (by
      simp only [fuStep]
      exact hstart.2)
  have hsends : (fuStep (⟨fu, ov, sends⟩ : FUState) (.interact now)).sends = sends := rfl
  have hfu : (fuStep (⟨fu, ov, sends⟩ : FUState) (.interact now)).fu
      = some (scheduleFollowUp fu 1 ov now).1 := rfl
  rw [hsends, hfu] at hrun
  omega

/-- C4 witness: from an idle participant, one interaction followed by three
timer deadlines yields at most 2 nudges (in fact exactly 2 fire). -/
theorem followUp_cycle_at_most_two_witness :
    (fuRun [FUEvent.fire 1, FUEvent.fire 2, FUEvent.fire 3]
      (fuStep ⟨none, none, 0⟩ (FUEvent.interact 0))).sends ≤ 0 + 2 :=
  followUp_cycle_at_most_two none none 0 0 _ (by decide)

-- ─── C8 ─────────────────────────────────────────────────────────────────

theorem scheduleFollowUp_active_override (fu : Option FollowUpEntry) (stage : Nat)
    (u now : Nat) (h : now < u) :
    (scheduleFollowUp fu stage (some u) now).2 = some u := by
  unfold scheduleFollowUp isHumanOverrideActive
  simp [h]

/-- C8: while the human override window is active (`now < silencedUntil`),
processing a customer message makes zero delivery calls, for every message
text, generation outcome and delivery outcome. -/
theorem executeMainLogic_override_suppresses (s : BotState) (now : Nat)
    (gen : Option String) (ok : Bool) (u : Nat)
    (hov : s.humanOverride = some u) (hnow : now < u) :
    (executeMainLogic s now gen ok).sends = [] := by
  unfold executeMainLogic
  cases hs : s.spam with
  | none => rfl
  | some entry =>
    by_cases hq : entry.messageQueue.isEmpty
    · simp [hq]
    · simp only [hq, Bool.false_eq_true, if_false]
      have h1 : (scheduleFollowUp s.followUp 1 s.humanOverride now).2 = some u := by
        rw [hov]
        exact scheduleFollowUp_active_override s.followUp 1 u now hnow
      simp only [h1]
      have h2 : isHumanOverrideActive (some u) now = (true, some u) := by
        simp [isHumanOverrideActive, hnow]
      simp [h2]

/-- C8 witness: with an override active until time 10^9, a keyword-heavy
message at time 5000 produces zero delivery calls. -/
theorem executeMainLogic_override_suppresses_witness :
    (executeMainLogic { emptyBotState with
        spam := some ⟨0, "", none, ["order kar do payment"]⟩,
        humanOverride := some 1000000000 } 5000 (some "reply") true).sends = [] :=
  executeMainLogic_override_suppresses _ 5000 (some "reply") true 1000000000
    rfl (by decide)

-- ─── Generation-phase claims (C7, C9, C10) ──────────────────────────────

theorem guardCleanupState_history (s : BotState) (entry : SpamEntry) (now : Nat) :
    (guardCleanupState s entry now).history = s.history := rfl

theorem guardCleanupState_safeMode (s : BotState) (entry : SpamEntry) (now : Nat) :
    (guardCleanupState s entry now).safeMode = s.safeMode := rfl

theorem guardCleanupState_spam (s : BotState) (entry : SpamEntry) (now : Nat) :
    (guardCleanupState s entry now).spam = some { entry with messageQueue := [] } := rfl

theorem executeMainLogic_genCalled_eq (s : BotState) (now : Nat) (gen : Option String)
    (ok : Bool) (h : (executeMainLogic s now gen ok).genCalled = true) :
    ∃ entry, s.spam = some entry ∧ entry.messageQueue.isEmpty = false ∧
      executeMainLogic s now gen ok =
        mainGenerationPhase (guardCleanupState s entry now)
          (String.intercalate " " entry.messageQueue) now gen ok := by
  unfold executeMainLogic at h ⊢
  cases hs : s.spam with
  | none =>
    simp only [hs] at h
    simp at h
  | some entry =>
    simp only [hs] at h ⊢
    by_cases hq : entry.messageQueue.isEmpty = true
    · rw [if_pos hq] at h
      simp at h
    · rw [if_neg hq] at h ⊢
      refine ⟨entry, rfl, by simpa using hq, ?_⟩
      split at h
      · simp at h
      · split at h
        · simp at h
        · split at h
          · simp at h
          · split at h
            · simp at h
            · split <;> first | rfl | contradiction

/-- C7: if the generation collaborator call fails, the turn is abandoned
atomically — the speculative user-turn append is rolled back (the stored
history equals its pre-turn content), safe mode is not marked "we replied"
(`lastSenderWasUs` is left `false`, with the user-message counter already
incremented), and no delivery call is attempted. -/
theorem executeMainLogic_genFailure_rollback (s : BotState) (now : Nat) (ok : Bool)
    (h : (executeMainLogic s now none ok).genCalled = true) :
    (executeMainLogic s now none ok).state.history = some (s.history.getD []) ∧
      (executeMainLogic s now none ok).state.safeMode =
        some ⟨(s.safeMode.getD ⟨0, false⟩).userMsgCount + 1, false⟩ ∧
      (executeMainLogic s now none ok).sends = [] := by
  obtain ⟨entry, hs, hq, heq⟩ := executeMainLogic_genCalled_eq s now none ok h
  rw [heq] at h ⊢
  unfold mainGenerationPhase at h ⊢
  cases hesc : (checkAndSetEscalation (guardCleanupState s entry now).escalation now
      (String.intercalate " " entry.messageQueue)).2 with
  | some m =>
    simp only [hesc] at h
    simp at h
  | none =>
    simp only [hesc]
    refine ⟨?_, ?_, ?_⟩
    · simp [guardCleanupState_history]
    · rfl
    · trivial

/-- C7 witness: a fresh participant's "hello" turn whose generation call
fails ends with the history entry rolled back to empty, safe mode counted
but not marked "we replied", and no delivery attempted. -/
theorem executeMainLogic_genFailure_rollback_witness :
    (executeMainLogic { emptyBotState with spam := some ⟨0, "x", none, ["hello"]⟩ }
        1000000 none true).state.history = some [] ∧
      (executeMainLogic { emptyBotState with spam := some ⟨0, "x", none, ["hello"]⟩ }
        1000000 none true).state.safeMode = some ⟨1, false⟩ ∧
      (executeMainLogic { emptyBotState with spam := some ⟨0, "x", none, ["hello"]⟩ }
        1000000 none true).sends = [] :=
  executeMainLogic_genFailure_rollback
    { emptyBotState with spam := some ⟨0, "x", none, ["hello"]⟩ } 1000000 true (by decide)

theorem isRateLimited_duplicate (e : SpamEntry) (lead : Option LeadEntry) (now : Nat)
    (r : String) (hdup : e.lastReplyText = r) (hne : r ≠ "") :
    isRateLimited (some e) lead now (some r) = true := by
  unfold isRateLimited
  split
  case h_1 sp heq2 => simp at heq2
  case h_2 sp entry2 heq2 =>
    injection heq2 with he2
    subst he2
    simp [hdup, hne]

/-- C9 (counterexample): the claim says a generated reply identical to the
previous recorded reply text is never delivered a second time.  The JS
duplicate check is `newReplyText && entry.lastReplyText === newReplyText`,
and the empty string is falsy: with the stored `lastReplyText = ""` and the
generation collaborator returning `""` again, generation is invoked and the
empty duplicate IS delivered. -/
theorem executeMainLogic_duplicate_suppressed_cex :
    (executeMainLogic { emptyBotState with spam := some ⟨0, "", none, ["hello"]⟩ }
        1000000 (some "") true).genCalled = true ∧
      (executeMainLogic { emptyBotState with spam := some ⟨0, "", none, ["hello"]⟩ }
        1000000 (some "") true).sends = [""] := by
  decide

/-- C9 (amended): if generation is invoked and returns a NON-EMPTY reply
text identical to the participant's previous recorded reply text, the
delivery call is skipped — no text is handed to the delivery collaborator
in that turn. -/
theorem executeMainLogic_duplicate_suppressed (s : BotState) (now : Nat) (r : String)
    (ok : Bool) (e : SpamEntry) (hs : s.spam = some e) (hdup : e.lastReplyText = r)
    (hne : r ≠ "") (h : (executeMainLogic s now (some r) ok).genCalled = true) :
    (executeMainLogic s now (some r) ok).sends = [] := by
  obtain ⟨entry, hs2, hq, heq⟩ := executeMainLogic_genCalled_eq s now (some r) ok h
  rw [hs] at hs2
  injection hs2 with hent
  subst hent
  rw [heq] at h ⊢
  unfold mainGenerationPhase at h ⊢
  cases hesc : (checkAndSetEscalation (guardCleanupState s e now).escalation now
      (String.intercalate " " e.messageQueue)).2 with
  | some m =>
    simp only [hesc] at h
    simp at h
  | none =>
    simp only [hesc]
    split
    · rfl
    · next hcond =>
      exact absurd (isRateLimited_duplicate _ _ now r hdup hne) hcond

/-- C9 witness: with stored `lastReplyText = "dup"` and generation returning
"dup" again, no delivery happens. -/
theorem executeMainLogic_duplicate_suppressed_witness :
    (executeMainLogic { emptyBotState with spam := some ⟨0, "dup", none, ["hello"]⟩ }
        1000000 (some "dup") true).sends = [] :=
  executeMainLogic_duplicate_suppressed
    { emptyBotState with spam := some ⟨0, "dup", none, ["hello"]⟩ } 1000000 "dup" true
    ⟨0, "dup", none, ["hello"]⟩ rfl rfl (by decide) (by decide)

/-- C10: when the post-generation duplicate check blocks a (non-empty)
reply, `executeMainLogic` returns with the speculative user turn still in
the history, `userMsgCount` already incremented and `lastSenderWasUs` still
false — unlike the generation-failure path there is no rollback — and no
delivery is attempted. -/
theorem executeMainLogic_duplicate_block_frame (s : BotState) (now : Nat) (r : String)
    (ok : Bool) (e : SpamEntry) (hs : s.spam = some e) (hdup : e.lastReplyText = r)
    (hne : r ≠ "") (h : (executeMainLogic s now (some r) ok).genCalled = true) :
    (executeMainLogic s now (some r) ok).state.history =
        some ((s.history.getD []) ++
          [⟨Role.user, String.intercalate " " e.messageQueue⟩]) ∧
      (executeMainLogic s now (some r) ok).state.safeMode =
        some ⟨(s.safeMode.getD ⟨0, false⟩).userMsgCount + 1, false⟩ ∧
      (executeMainLogic s now (some r) ok).sends = [] := by
  obtain ⟨entry, hs2, hq, heq⟩ := executeMainLogic_genCalled_eq s now (some r) ok h
  rw [hs] at hs2
  injection hs2 with hent
  subst hent
  rw [heq] at h ⊢
  unfold mainGenerationPhase at h ⊢
  cases hesc : (checkAndSetEscalation (guardCleanupState s e now).escalation now
      (String.intercalate " " e.messageQueue)).2 with
  | some m =>
    simp only [hesc] at h
    simp at h
  | none =>
    simp only [hesc]
    split
    · refine ⟨?_, ?_, ?_⟩
      · rfl
      · rfl
      · rfl
    · next hcond =>
      exact absurd (isRateLimited_duplicate _ _ now r hdup hne) hcond

/-- C10 witness: a blocked duplicate "dup" reply leaves the user turn
appended, the counter at 1 and `lastSenderWasUs` false, with no delivery. -/
theorem executeMainLogic_duplicate_block_frame_witness :
    (executeMainLogic { emptyBotState with spam := some ⟨0, "dup", none, ["hi ji"]⟩ }
        2000000 (some "dup") true).state.history = some [⟨Role.user, "hi ji"⟩] ∧
      (executeMainLogic { emptyBotState with spam := some ⟨0, "dup", none, ["hi ji"]⟩ }
        2000000 (some "dup") true).state.safeMode = some ⟨1, false⟩ ∧
      (executeMainLogic { emptyBotState with spam := some ⟨0, "dup", none, ["hi ji"]⟩ }
        2000000 (some "dup") true).sends = [] :=
  executeMainLogic_duplicate_block_frame
    { emptyBotState with spam := some ⟨0, "dup", none, ["hi ji"]⟩ } 2000000 "dup" true
    ⟨0, "dup", none, ["hi ji"]⟩ rfl rfl (by decide) (by decide)
